import Mathlib

/-!
Verification of the ASA-to-FMC static route migrator
(`asaToFMCrouteMigrator.py`) against its natural-language specification.

The development shallowly embeds the route-migration pipeline:

* the object catalog (`get_existing_objects`, the `network_objects` /
  `host_objects` dictionaries, keyed by the FMC object name);
* the resolver (`find_or_create_object`, which classifies by netmask and
  looks a value up under the key `"obj-" ++ value`);
* the parser and batch builder (`parse_and_prepare_routes`: per-line
  six-token recognition, `int()` on the metric token, gateway-then-network
  resolution, all-or-nothing rejection with a sorted, deduplicated
  missing-reference report);
* the deployment driver (`deploy_routes`: sequential submissions in input
  order, a progress diagnostic per success, a pacing sleep after every 10th
  successful submission, fail-fast abort with a payload dump).

Effectful pieces are made explicit: the two catalog HTTP fetches become
`Except` values, printing becomes a list of log events, `sys.exit(1)` and
an uncaught `ValueError` become dedicated outcome constructors, and the
driver's HTTP submissions are driven by a success oracle `ok : Nat → Bool`
over the 1-based submission index, producing a trace of events.
-/

/-- A raw item of an FMC object-listing response.  The Python code reads the
keys `name` (guarded by `if 'name' in obj`, hence optional here), `id` and
`type`; `value` is the object's address value, carried by the API response
but never consulted by the migrator after storage. -/
structure RawItem where
  name? : Option String
  id : String
  type : String
  value : String
deriving DecidableEq

/-- An object as stored in one of the two caches (the Python code stores the
whole response dict; these are the fields it ever reads, plus `value`). -/
structure CatalogObject where
  name : String
  id : String
  type : String
  value : String
deriving DecidableEq

/-- A Python dict keyed by strings: association list, most recent insertion
first.  Only lookup, membership and size are observed by the migrator. -/
abbrev Cache := List (String × CatalogObject)

/-- Dict lookup: `cache[key]` / `key in cache`. -/
def cacheLookup (c : Cache) (k : String) : Option CatalogObject :=
  (c.find? (fun p => p.1 == k)).map Prod.snd

/-- Dict assignment `cache[key] = v` (replacing, last write wins). -/
def cacheInsert (c : Cache) (k : String) (v : CatalogObject) : Cache :=
  (k, v) :: c.eraseP (fun p => p.1 == k)

/-- The mutable converter state the modelled methods touch: the two object
caches (`self.network_objects`, `self.host_objects`).  Connection fields
(host, credentials, token, device id) never influence the modelled logic. -/
structure ConverterState where
  network_objects : Cache
  host_objects : Cache
deriving DecidableEq

def emptyState : ConverterState := ⟨[], []⟩

/-- The diagnostics `get_existing_objects` prints, as abstract events in
print order. -/
inductive CatalogLog where
  | fetchingNetworks
  | foundNetwork (name : String)
  | errorNetworks (e : String)
  | fetchingHosts
  | foundHost (name : String)
  | errorHosts (e : String)
  | summary (nets hosts : Nat)
deriving DecidableEq

def toCatalog (nm : String) (it : RawItem) : CatalogObject :=
  ⟨nm, it.id, it.type, it.value⟩

/-- The per-item loop of `get_existing_objects`: each response item that has
a `name` is stored under that name (`self.network_objects[key] = obj` with
`key = f"{obj['name']}"`, resp. `self.host_objects[obj['name']] = obj`). -/
def loadCache (items : List RawItem) (c : Cache) : Cache :=
  items.foldl
    (fun acc it =>
      match it.name? with
      | some nm => cacheInsert acc nm (toCatalog nm it)
      | none => acc) c

/-- `get_existing_objects`: one fetch of network objects and one of host
objects, each wrapped in its own try/except that logs the error and falls
through (non-fatal).  Returns the updated state and the printed log. -/
def get_existing_objects (st : ConverterState)
    (netFetch hostFetch : Except String (List RawItem)) :
    ConverterState × List CatalogLog :=
  let netPart : Cache × List CatalogLog :=
    match netFetch with
    | .ok items =>
        (loadCache items st.network_objects,
         items.filterMap (fun it => it.name?.map CatalogLog.foundNetwork))
    | .error e => (st.network_objects, [CatalogLog.errorNetworks e])
  let hostPart : Cache × List CatalogLog :=
    match hostFetch with
    | .ok items =>
        (loadCache items st.host_objects,
         items.filterMap (fun it => it.name?.map CatalogLog.foundHost))
    | .error e => (st.host_objects, [CatalogLog.errorHosts e])
  ({ st with network_objects := netPart.1, host_objects := hostPart.1 },
   CatalogLog.fetchingNetworks :: netPart.2
     ++ CatalogLog.fetchingHosts :: hostPart.2
     ++ [CatalogLog.summary netPart.1.length hostPart.1.length])

/-- The converter state after a fresh catalog load in which both fetches
succeeded with the given items. -/
def loadedState (netItems hostItems : List RawItem) : ConverterState :=
  (get_existing_objects emptyState (.ok netItems) (.ok hostItems)).1

/-- `find_or_create_object(value, mask=None)`: classify as host iff the mask
is `'255.255.255.255'` or `None`, pick the corresponding cache, and look up
the key `"obj-" + value` (the source computes the same key in both branches
of its conditional). -/
def find_or_create_object (st : ConverterState) (value : String)
    (mask : Option String := none) : Option CatalogObject :=
  let is_host := mask == some "255.255.255.255" || mask == none
  let cache := if is_host then st.host_objects else st.network_objects
  let cache_key := if is_host then "obj-" ++ value else "obj-" ++ value
  cacheLookup cache cache_key

/-- A route intent: the six tokens of a recognised `route` line, with the
metric already converted by `int()`. -/
structure RouteIntent where
  interface : String
  network : String
  netmask : String
  gateway : String
  metric : Int
deriving DecidableEq

/-- A `{type, id, name}` reference to a catalog object inside a payload. -/
structure ObjRef where
  type : String
  id : String
  name : String
deriving DecidableEq

/-- The `gateway` field of a payload: `{"object": {...}}`. -/
structure GatewayField where
  object : ObjRef
deriving DecidableEq

/-- The wire-ready FMC static-route payload built at lines 138-155 of the
source. -/
structure RoutePayload where
  interfaceName : String
  selectedNetworks : List ObjRef
  gateway : GatewayField
  metricValue : Int
  type : String
  isTunneled : Bool
deriving DecidableEq

/-- Splitting a character list on whitespace runs, accumulating the current
token reversed; leading/trailing whitespace yields no token, so this is both
the `strip()` and the argumentless `split()`. -/
def splitWsAux : List Char → List Char → List String
  | [], acc => if acc = [] then [] else [String.mk acc.reverse]
  | c :: cs, acc =>
      if c.isWhitespace then
        if acc = [] then splitWsAux cs []
        else String.mk acc.reverse :: splitWsAux cs []
      else splitWsAux cs (c :: acc)

/-- Python `line.strip().split()`: split on whitespace runs, discarding
empty tokens. -/
def pySplit (s : String) : List String :=
  splitWsAux s.data []

/-- Decimal digits with Python's optional single underscores between them
(`int("1_0") = 10`, a lone or doubled underscore fails). -/
def pyDigitsAux : List Char → Nat → Option Nat
  | [], acc => some acc
  | '_' :: c :: cs, acc =>
      if c.isDigit then pyDigitsAux cs (acc * 10 + (c.toNat - 48)) else none
  | c :: cs, acc =>
      if c.isDigit then pyDigitsAux cs (acc * 10 + (c.toNat - 48)) else none

def pyDigits? : List Char → Option Nat
  | [] => none
  | c :: cs => if c.isDigit then pyDigitsAux cs (c.toNat - 48) else none

/-- Surrounding-whitespace stripping on a character list (Python `str.strip`). -/
def stripChars (cs : List Char) : List Char :=
  ((cs.dropWhile Char.isWhitespace).reverse.dropWhile Char.isWhitespace).reverse

/-- Python `int(s)` on a decimal string: optional surrounding whitespace,
optional sign, non-empty digit run; `none` models the `ValueError`. -/
def pyInt? (s : String) : Option Int :=
  match stripChars s.data with
  | '+' :: rest => (pyDigits? rest).map (fun n => (n : Int))
  | '-' :: rest => (pyDigits? rest).map (fun n => -(n : Int))
  | cs => (pyDigits? cs).map (fun n => (n : Int))

/-- What one input line does in the parsing loop: not a route line (skip),
a recognised route line (an intent), or a recognised route line whose metric
token makes `int(parts[5])` raise `ValueError`. -/
inductive LineResult where
  | skip
  | metricError (token : String)
  | intent (r : RouteIntent)
deriving DecidableEq

/-- Lines 117-123 of the source: `parts = line.strip().split()`; a line is a
route iff it has exactly six tokens and `parts[0] == 'route'`; the tokens map
positionally and `int(parts[5])` converts the metric. -/
def parseLine (line : String) : LineResult :=
  match pySplit line with
  | [kw, itf, network, netmask, gateway, metricTok] =>
      if kw = "route" then
        match pyInt? metricTok with
        | some metric => .intent ⟨itf, network, netmask, gateway, metric⟩
        | none => .metricError metricTok
      else .skip
  | _ => .skip

/-- Python `set.add`, observed later only through `sorted(...)`: keep the
element list duplicate-free. -/
def setAdd (s : List String) (x : String) : List String :=
  if x ∈ s then s else s ++ [x]

/-- The route payload built from a resolved intent (lines 138-155). -/
def mkRoute (r : RouteIntent) (gw_obj net_obj : CatalogObject) : RoutePayload :=
  { interfaceName := r.interface
    selectedNetworks := [{ type := net_obj.type, id := net_obj.id, name := net_obj.name }]
    gateway := { object := { type := gw_obj.type, id := gw_obj.id, name := gw_obj.name } }
    metricValue := r.metric
    type := "IPv4StaticRoute"
    isTunneled := false }

/-- The scanning loop of `parse_and_prepare_routes` over the input lines,
carrying the `routes` and `missing_objects` accumulators.  An uncaught
`ValueError` from `int()` aborts the loop (`Except.error` with the bad
token); otherwise the final accumulators are returned. -/
def parseScan (st : ConverterState) :
    List String → List RoutePayload → List String →
    Except String (List RoutePayload × List String)
  | [], routes, missing => .ok (routes, missing)
  | line :: rest, routes, missing =>
    match parseLine line with
    | .skip => parseScan st rest routes missing
    | .metricError tok => .error tok
    | .intent r =>
      match find_or_create_object st r.gateway none with
      | none => parseScan st rest routes (setAdd missing ("Gateway: " ++ r.gateway))
      | some gw_obj =>
        match find_or_create_object st r.network (some r.netmask) with
        | none =>
            parseScan st rest routes
              (setAdd missing ("Network: " ++ r.network ++ "/" ++ r.netmask))
        | some net_obj => parseScan st rest (routes ++ [mkRoute r gw_obj net_obj]) missing

/-- Python `sorted` on the set of missing-object descriptors. -/
def sortStrings (l : List String) : List String :=
  List.insertionSort (· ≤ ·) l

/-- The observable outcome of `parse_and_prepare_routes`: an uncaught
`ValueError` from the metric conversion, the `sys.exit(1)` taken when
`missing_objects` is non-empty (carrying the sorted report), or the
returned route list. -/
inductive PrepareOutcome where
  | metricError (token : String)
  | missingExit (missing : List String)
  | ok (routes : List RoutePayload)
deriving DecidableEq

/-- `parse_and_prepare_routes` (lines 109-166): scan every line, then either
report `sorted(missing_objects)` and exit, or return the prepared routes. -/
def parse_and_prepare_routes (st : ConverterState) (lines : List String) :
    PrepareOutcome :=
  match parseScan st lines [] [] with
  | .error tok => .metricError tok
  | .ok (routes, missing) =>
      if missing.isEmpty then .ok routes else .missingExit (sortStrings missing)

/-- The observable events of `deploy_routes`, in order: an HTTP submission
attempt of a payload at a 1-based index, the success diagnostic
`[i/total] Successfully deployed route to <name>`, the pacing
`time.sleep(1)`, and the failure diagnostics (which dump the full failing
payload) before `sys.exit(1)`. -/
inductive DeployEvent where
  | submit (i : Nat) (p : RoutePayload)
  | progress (i total : Nat) (p : RoutePayload)
  | sleep1
  | errorDump (p : RoutePayload)
deriving DecidableEq

/-- The loop of `deploy_routes` from 1-based index `i`, driven by the
success oracle `ok` (true: the POST gets a 2xx; false:
`raise_for_status`/transport raises).  Returns the event trace and whether
the loop ran to completion (`false` models the `sys.exit(1)` abort). -/
def deployLoop (ok : Nat → Bool) (total : Nat) :
    List RoutePayload → Nat → List DeployEvent × Bool
  | [], _ => ([], true)
  | p :: ps, i =>
    if ok i then
      let rest := deployLoop ok total ps (i + 1)
      (DeployEvent.submit i p :: DeployEvent.progress i total p ::
         (if i % 10 = 0 then DeployEvent.sleep1 :: rest.1 else rest.1),
       rest.2)
    else ([DeployEvent.submit i p, DeployEvent.errorDump p], false)

/-- `deploy_routes` (lines 168-189): submit each payload in input order,
`enumerate(routes, 1)`. -/
def deploy_routes (routes : List RoutePayload) (ok : Nat → Bool) :
    List DeployEvent × Bool :=
  deployLoop ok routes.length routes 1

/-- The submission attempts of a trace, in order, with their indices. -/
def submits : List DeployEvent → List (Nat × RoutePayload)
  | [] => []
  | DeployEvent.submit i p :: rest => (i, p) :: submits rest
  | DeployEvent.progress _ _ _ :: rest => submits rest
  | DeployEvent.sleep1 :: rest => submits rest
  | DeployEvent.errorDump _ :: rest => submits rest

/-- `numberFrom i [p1, p2, ...] = [(i, p1), (i+1, p2), ...]`. -/
def numberFrom : Nat → List RoutePayload → List (Nat × RoutePayload)
  | _, [] => []
  | i, p :: ps => (i, p) :: numberFrom (i + 1) ps

/-- Whether a line result is a produced route intent. -/
def isIntent : LineResult → Bool
  | .intent _ => true
  | _ => false

/-- The shape of a missing-reference descriptor as printed by the batch
report: `Gateway: <value>` or `Network: <value>/<mask>`. -/
def isDescriptor (d : String) : Prop :=
  (∃ g, d = "Gateway: " ++ g) ∨ ∃ n mk, d = "Network: " ++ n ++ "/" ++ mk

/-- A catalog in which the host `10.0.0.1` and the network `10.0.0.0` exist
under the `obj-`-prefixed names the lookup expects. -/
def claim2State : ConverterState :=
  loadedState [⟨some "obj-10.0.0.0", "N1", "Network", "10.0.0.0"⟩]
    [⟨some "obj-10.0.0.1", "H1", "Host", "10.0.0.1"⟩]

/-- Two route lines: the first resolves cleanly against `claim2State`, the
second references the absent network `10.9.9.9`. -/
def claim2Lines : List String :=
  ["route outside 10.0.0.0 255.0.0.0 10.0.0.1 5",
   "route outside 10.9.9.9 255.0.0.0 10.0.0.1 5"]

/-- The payload the first line of `claim2Lines` resolves to. -/
def claim2Payload : RoutePayload :=
  mkRoute ⟨"outside", "10.0.0.0", "255.0.0.0", "10.0.0.1", 5⟩
    ⟨"obj-10.0.0.1", "H1", "Host", "10.0.0.1"⟩
    ⟨"obj-10.0.0.0", "N1", "Network", "10.0.0.0"⟩

/-- A catalog for the bad-metric scenario: both referenced objects exist, so
only the metric decides the outcome. -/
def claim3State : ConverterState :=
  loadedState [⟨some "obj-10.1.1.0", "N3", "Network", "10.1.1.0"⟩]
    [⟨some "obj-10.1.1.1", "H3", "Host", "10.1.1.1"⟩]

/-- A six-token route line whose metric token `one` is not an integer,
followed by the same line with a valid metric. -/
def claim3Lines : List String :=
  ["route inside 10.1.1.0 255.255.255.0 10.1.1.1 one",
   "route inside 10.1.1.0 255.255.255.0 10.1.1.1 1"]

/-- The payload the valid second line of `claim3Lines` resolves to. -/
def claim3Payload : RoutePayload :=
  mkRoute ⟨"inside", "10.1.1.0", "255.255.255.0", "10.1.1.1", 1⟩
    ⟨"obj-10.1.1.1", "H3", "Host", "10.1.1.1"⟩
    ⟨"obj-10.1.1.0", "N3", "Network", "10.1.1.0"⟩

/-- The spec's worked-example catalog, but with the objects named so that
the `obj-<value>` lookup convention actually finds them. -/
def claim6State : ConverterState :=
  loadedState [⟨some "obj-10.1.1.0", "N1", "Network", "10.1.1.0"⟩]
    [⟨some "obj-10.1.1.1", "H1", "Host", "10.1.1.1"⟩]

/-- The last item of an FMC listing whose `name` is `k`, as the catalog
object it would be stored as — the reference value of a dict build in which
later writes to the same key win. -/
def lastNamed : List RawItem → String → Option CatalogObject
  | [], _ => none
  | it :: items, k =>
    match lastNamed items k with
    | some o => some o
    | none => if it.name? = some k then some (toCatalog k it) else none

/-- Trace well-pacedness: every `sleep1` immediately follows a progress
diagnostic whose index is divisible by 10, every progress diagnostic with
such an index is immediately followed by `sleep1`, and no `sleep1` occurs
anywhere else. -/
def pacingOK : List DeployEvent → Bool
  | [] => true
  | DeployEvent.sleep1 :: _ => false
  | DeployEvent.progress i _ _ :: DeployEvent.sleep1 :: rest =>
      (i % 10 == 0) && pacingOK rest
  | DeployEvent.progress i _ _ :: rest => (i % 10 != 0) && pacingOK rest
  | _ :: rest => pacingOK rest

/-- Trace progress-discipline: every submission is immediately followed
either by its own `i/total` progress diagnostic (exactly when the submission
succeeded) or by the failure dump of its own payload, which ends the trace
(exactly when it failed). -/
def progressOK (total : Nat) (ok : Nat → Bool) : List DeployEvent → Bool
  | [] => true
  | DeployEvent.submit i p :: DeployEvent.progress j t q :: rest =>
      if j = i ∧ t = total ∧ q = p then ok i && progressOK total ok rest else false
  | DeployEvent.submit i p :: DeployEvent.errorDump q :: rest =>
      if q = p ∧ rest = [] then !ok i else false
  | DeployEvent.submit _ _ :: _ => false
  | _ :: rest => progressOK total ok rest

/-- Whether a trace is empty or begins with a submission attempt. -/
def headSubmit : List DeployEvent → Bool
  | [] => true
  | DeployEvent.submit _ _ :: _ => true
  | _ :: _ => false

/-- A fixed payload for the driver scenarios. -/
def claim9Payload : RoutePayload :=
  { interfaceName := "inside",
    selectedNetworks := [⟨"Network", "N1", "obj-n"⟩],
    gateway := ⟨⟨"Host", "H1", "obj-g"⟩⟩,
    metricValue := 1, type := "IPv4StaticRoute", isTunneled := false }

/-- Ten payloads to deploy. -/
def claim9Routes : List RoutePayload := List.replicate 10 claim9Payload

/-- A submission oracle under which the first nine submissions succeed and
the 10th fails. -/
def claim9Ok : Nat → Bool := fun i => decide (i < 10)

theorem cacheLookup_cons (p : String × CatalogObject) (c : Cache) (k : String) :
    cacheLookup (p :: c) k = if p.1 = k then some p.2 else cacheLookup c k := by
  by_cases h : p.1 = k <;> simp [cacheLookup, List.find?_cons, h]

theorem cacheLookup_eraseP (c : Cache) (nm k : String) (h : nm ≠ k) :
    cacheLookup (c.eraseP (fun p => p.1 == nm)) k = cacheLookup c k := by
  induction c with
  | nil => rfl
  | cons a c ih =>
    by_cases ha : a.1 = nm
    · have hak : a.1 ≠ k := by rw [ha]; exact h
      rw [List.eraseP_cons_of_pos (by simpa using ha), cacheLookup_cons, if_neg hak]
    · rw [List.eraseP_cons_of_neg (by simpa using ha), cacheLookup_cons,
        cacheLookup_cons, ih]

theorem cacheLookup_insert (c : Cache) (nm k : String) (o : CatalogObject) :
    cacheLookup (cacheInsert c nm o) k = if nm = k then some o else cacheLookup c k := by
  unfold cacheInsert
  rw [cacheLookup_cons]
  by_cases h : nm = k
  · simp [h]
  · rw [if_neg h, if_neg h, cacheLookup_eraseP c nm k h]

theorem loadCache_cons (it : RawItem) (items : List RawItem) (c : Cache) :
    loadCache (it :: items) c =
      loadCache items
        (match it.name? with
          | some nm => cacheInsert c nm (toCatalog nm it)
          | none => c) := rfl

theorem cacheLookup_loadCache (items : List RawItem) (c : Cache) (k : String) :
    cacheLookup (loadCache items c) k =
      match lastNamed items k with
      | some o => some o
      | none => cacheLookup c k := by
  induction items generalizing c with
  | nil => rfl
  | cons it items ih =>
    rw [loadCache_cons]
    simp only [lastNamed]
    cases hnm : it.name? with
    | none =>
      rw [ih]
      cases hln : lastNamed items k <;> simp
    | some nm =>
      rw [ih]
      cases hln : lastNamed items k with
      | some o => simp
      | none =>
        rw [cacheLookup_insert]
        by_cases hk : nm = k
        · subst hk; simp
        · simp [hk]

theorem loadedState_hosts (netItems hostItems : List RawItem) :
    (loadedState netItems hostItems).host_objects = loadCache hostItems [] := rfl

theorem loadedState_networks (netItems hostItems : List RawItem) :
    (loadedState netItems hostItems).network_objects = loadCache netItems [] := rfl

theorem lastNamed_of_loadCache_empty (items : List RawItem) (k : String) :
    cacheLookup (loadCache items []) k = lastNamed items k := by
  rw [cacheLookup_loadCache]
  cases lastNamed items k <;> rfl

/-- Claim C1, counterexample.  A host object with address value `10.1.1.1`
but name `gw-111` is loaded into the catalog (it sits in the host cache with
that value), yet looking up its value `10.1.1.1` in the host partition
(`find_or_create_object` with no mask, the `lookupHost` of the spec) returns
nothing: the catalog is keyed by object name, and the lookup key is the
literal string `obj-10.1.1.1`, not the stored value. -/
theorem claim1_counterexample :
    cacheLookup (loadedState [] [⟨some "gw-111", "H1", "Host", "10.1.1.1"⟩]).host_objects
        "gw-111" = some ⟨"gw-111", "H1", "Host", "10.1.1.1"⟩
    ∧ find_or_create_object (loadedState [] [⟨some "gw-111", "H1", "Host", "10.1.1.1"⟩])
        "10.1.1.1" none = none := by
  constructor <;> decide

/-- Claim C1, amended.  The catalog is indexed by each loaded object's
name (last seen wins), not by its address value: a lookup of value `v`
in either partition returns exactly the most recently fetched object of
that partition whose *name* is the literal string `obj-` ++ `v` —
matching is exact string equality on that name, with no normalization,
and the object's stored address value plays no role. -/
theorem claim1_catalog_keyed_by_name (netItems hostItems : List RawItem)
    (v : String) (mk : String) :
    find_or_create_object (loadedState netItems hostItems) v none
        = lastNamed hostItems ("obj-" ++ v)
    ∧ find_or_create_object (loadedState netItems hostItems) v (some "255.255.255.255")
        = lastNamed hostItems ("obj-" ++ v)
    ∧ (mk ≠ "255.255.255.255" →
        find_or_create_object (loadedState netItems hostItems) v (some mk)
          = lastNamed netItems ("obj-" ++ v)) := by
  refine ⟨?_, ?_, fun hmk => ?_⟩
  · show cacheLookup (loadedState netItems hostItems).host_objects ("obj-" ++ v) = _
    rw [loadedState_hosts, lastNamed_of_loadCache_empty]
  · show cacheLookup (loadedState netItems hostItems).host_objects ("obj-" ++ v) = _
    rw [loadedState_hosts, lastNamed_of_loadCache_empty]
  · have : find_or_create_object (loadedState netItems hostItems) v (some mk)
        = cacheLookup (loadedState netItems hostItems).network_objects ("obj-" ++ v) := by
      unfold find_or_create_object
      simp [hmk]
    rw [this, loadedState_networks, lastNamed_of_loadCache_empty]

/-- Claim C5 (confirmed).  The resolver consults the host partition exactly
when the mask is `255.255.255.255` or absent, and the network partition
otherwise; gateways are resolved with no mask (the call site passes none),
hence always against the host partition.  In every case the key looked up is
`obj-` ++ value. -/
theorem claim5_resolver_classification (st : ConverterState) (v : String)
    (mk : Option String) :
    find_or_create_object st v mk =
      cacheLookup
        (if mk = some "255.255.255.255" ∨ mk = none
          then st.host_objects else st.network_objects)
        ("obj-" ++ v)
    ∧ find_or_create_object st v none = cacheLookup st.host_objects ("obj-" ++ v) := by
  constructor
  · unfold find_or_create_object
    rcases mk with _ | m
    · simp
    · by_cases h : m = "255.255.255.255"
      · subst h; simp
      · simp [h]
  · rfl

/-- Claim C8 (confirmed).  A failing catalog fetch is logged and non-fatal:
with the network fetch failing (resp. the host fetch), `get_existing_objects`
still returns a state in which the other partition is fully populated and the
failed one is left as it was, the error diagnostic appears in the log, and
the run proceeds to the final summary diagnostic. -/
theorem claim8_catalog_load_nonfatal (st : ConverterState) (e : String)
    (items : List RawItem) :
    (get_existing_objects st (.error e) (.ok items)).1
        = { st with host_objects := loadCache items st.host_objects }
    ∧ CatalogLog.errorNetworks e ∈ (get_existing_objects st (.error e) (.ok items)).2
    ∧ CatalogLog.summary st.network_objects.length (loadCache items st.host_objects).length
        ∈ (get_existing_objects st (.error e) (.ok items)).2
    ∧ (get_existing_objects st (.ok items) (.error e)).1
        = { st with network_objects := loadCache items st.network_objects }
    ∧ CatalogLog.errorHosts e ∈ (get_existing_objects st (.ok items) (.error e)).2
    ∧ CatalogLog.summary (loadCache items st.network_objects).length st.host_objects.length
        ∈ (get_existing_objects st (.ok items) (.error e)).2 := by
  refine ⟨rfl, ?_, ?_, rfl, ?_, ?_⟩ <;> simp [get_existing_objects]

example : pySplit "  route inside 10.1.1.0 255.255.255.0 10.1.1.1 1  " =
    ["route", "inside", "10.1.1.0", "255.255.255.0", "10.1.1.1", "1"] := by decide

example : pyInt? "17" = some 17 := by decide
example : pyInt? "-4" = some (-4) := by decide
example : pyInt? "one" = none := by decide
example : pyInt? "" = none := by decide

example :
    parseLine "route inside 10.1.1.0 255.255.255.0 10.1.1.1 1" =
      LineResult.intent ⟨"inside", "10.1.1.0", "255.255.255.0", "10.1.1.1", 1⟩ := by
  decide

example :
    parse_and_prepare_routes
      (loadedState [⟨some "net-101", "N1", "Network", "10.1.1.0"⟩]
        [⟨some "gw-111", "H1", "Host", "10.1.1.1"⟩])
      ["route inside 10.1.1.0 255.255.255.0 10.1.1.1 1"] =
    PrepareOutcome.missingExit ["Gateway: 10.1.1.1"] := by decide

theorem parseLine_intent_of (line itf n mk g met : String) (v : Int)
    (hline : pySplit line = ["route", itf, n, mk, g, met])
    (hmet : pyInt? met = some v) :
    parseLine line = LineResult.intent ⟨itf, n, mk, g, v⟩ := by
  unfold parseLine
  rw [hline]
  simp [hmet]

theorem parseLine_metricError_of (line itf n mk g met : String)
    (hline : pySplit line = ["route", itf, n, mk, g, met])
    (hmet : pyInt? met = none) :
    parseLine line = LineResult.metricError met := by
  unfold parseLine
  rw [hline]
  simp [hmet]

theorem parseScan_skip_step (st : ConverterState) (line : String)
    (rest : List String) (routes : List RoutePayload) (missing : List String)
    (h : parseLine line = LineResult.skip) :
    parseScan st (line :: rest) routes missing = parseScan st rest routes missing := by
  simp only [parseScan, h]

theorem parseScan_metricError_step (st : ConverterState) (line : String)
    (rest : List String) (routes : List RoutePayload) (missing : List String)
    (tok : String) (h : parseLine line = LineResult.metricError tok) :
    parseScan st (line :: rest) routes missing = .error tok := by
  simp only [parseScan, h]

theorem parseScan_gwMissing_step (st : ConverterState) (line : String)
    (rest : List String) (routes : List RoutePayload) (missing : List String)
    (r : RouteIntent) (hpl : parseLine line = LineResult.intent r)
    (hgw : find_or_create_object st r.gateway none = none) :
    parseScan st (line :: rest) routes missing
      = parseScan st rest routes (setAdd missing ("Gateway: " ++ r.gateway)) := by
  simp only [parseScan, hpl, hgw]

theorem parseScan_netMissing_step (st : ConverterState) (line : String)
    (rest : List String) (routes : List RoutePayload) (missing : List String)
    (r : RouteIntent) (gw_obj : CatalogObject)
    (hpl : parseLine line = LineResult.intent r)
    (hgw : find_or_create_object st r.gateway none = some gw_obj)
    (hnet : find_or_create_object st r.network (some r.netmask) = none) :
    parseScan st (line :: rest) routes missing
      = parseScan st rest routes
          (setAdd missing ("Network: " ++ r.network ++ "/" ++ r.netmask)) := by
  simp only [parseScan, hpl, hgw, hnet]

theorem parseScan_resolved_step (st : ConverterState) (line : String)
    (rest : List String) (routes : List RoutePayload) (missing : List String)
    (r : RouteIntent) (gw_obj net_obj : CatalogObject)
    (hpl : parseLine line = LineResult.intent r)
    (hgw : find_or_create_object st r.gateway none = some gw_obj)
    (hnet : find_or_create_object st r.network (some r.netmask) = some net_obj) :
    parseScan st (line :: rest) routes missing
      = parseScan st rest (routes ++ [mkRoute r gw_obj net_obj]) missing := by
  simp only [parseScan, hpl, hgw, hnet]

theorem setAdd_mem (s : List String) (x d : String) :
    d ∈ setAdd s x → d ∈ s ∨ d = x := by
  unfold setAdd
  by_cases hx : x ∈ s
  · rw [if_pos hx]
    exact fun hd => Or.inl hd
  · rw [if_neg hx]
    intro hd
    rcases List.mem_append.mp hd with h | h
    · exact Or.inl h
    · exact Or.inr (by simpa using h)

theorem setAdd_nodup (s : List String) (x : String) (h : s.Nodup) :
    (setAdd s x).Nodup := by
  unfold setAdd
  by_cases hx : x ∈ s
  · simpa [hx]
  · rw [if_neg hx, List.nodup_append]
    refine ⟨h, List.nodup_singleton x, ?_⟩
    intro a ha hax
    rw [List.mem_singleton] at hax
    exact hx (hax ▸ ha)

theorem gateway_isDescriptor (g : String) : isDescriptor ("Gateway: " ++ g) :=
  Or.inl ⟨g, rfl⟩

theorem network_isDescriptor (n mk : String) :
    isDescriptor ("Network: " ++ n ++ "/" ++ mk) :=
  Or.inr ⟨n, mk, rfl⟩

theorem parseScan_missing_props (st : ConverterState) (lines : List String) :
    ∀ (routes : List RoutePayload) (missing : List String)
      (r : List RoutePayload) (m : List String),
      parseScan st lines routes missing = .ok (r, m) →
      (missing.Nodup → m.Nodup) ∧ (∀ d, d ∈ m → d ∈ missing ∨ isDescriptor d) := by
  induction lines with
  | nil =>
    intro routes missing r m h
    simp only [parseScan] at h
    obtain ⟨-, hm⟩ : routes = r ∧ missing = m := by
      have := h
      simp only [Except.ok.injEq, Prod.mk.injEq] at this
      exact this
    subst hm
    exact ⟨fun hn => hn, fun d hd => Or.inl hd⟩
  | cons line rest ih =>
    intro routes missing r m h
    cases hpl : parseLine line with
    | skip =>
      rw [parseScan_skip_step st line rest routes missing hpl] at h
      exact ih routes missing r m h
    | metricError tok =>
      rw [parseScan_metricError_step st line rest routes missing tok hpl] at h
      cases h
    | intent ri =>
      cases hgw : find_or_create_object st ri.gateway none with
      | none =>
        rw [parseScan_gwMissing_step st line rest routes missing ri hpl hgw] at h
        obtain ⟨hnd, hmem⟩ := ih routes _ r m h
        refine ⟨fun hn => hnd (setAdd_nodup missing _ hn), fun d hd => ?_⟩
        rcases hmem d hd with hin | hdesc
        · rcases setAdd_mem missing _ d hin with hin' | heq
          · exact Or.inl hin'
          · exact Or.inr (heq ▸ gateway_isDescriptor ri.gateway)
        · exact Or.inr hdesc
      | some gw_obj =>
        cases hnet : find_or_create_object st ri.network (some ri.netmask) with
        | none =>
          rw [parseScan_netMissing_step st line rest routes missing ri gw_obj hpl hgw hnet] at h
          obtain ⟨hnd, hmem⟩ := ih routes _ r m h
          refine ⟨fun hn => hnd (setAdd_nodup missing _ hn), fun d hd => ?_⟩
          rcases hmem d hd with hin | hdesc
          · rcases setAdd_mem missing _ d hin with hin' | heq
            · exact Or.inl hin'
            · exact Or.inr (heq ▸ network_isDescriptor ri.network ri.netmask)
          · exact Or.inr hdesc
        | some net_obj =>
          rw [parseScan_resolved_step st line rest routes missing ri gw_obj net_obj hpl hgw hnet] at h
          exact ih _ missing r m h

/-- Claim C2 (confirmed).  All-or-nothing batch law: when the full scan of
the input completes (no metric error) and the collected missing-reference
set is non-empty, the run exits reporting exactly the sorted, duplicate-free
list of descriptors, every one of the form `Gateway: <value>` or
`Network: <value>/<mask>`; no route list is returned, even though resolved
intents were accumulated. -/
theorem claim2_all_or_nothing (st : ConverterState) (lines : List String)
    (routes : List RoutePayload) (missing : List String)
    (hscan : parseScan st lines [] [] = .ok (routes, missing))
    (hne : missing ≠ []) :
    parse_and_prepare_routes st lines = PrepareOutcome.missingExit (sortStrings missing)
    ∧ (sortStrings missing).Sorted (· ≤ ·)
    ∧ (sortStrings missing).Nodup
    ∧ (∀ d ∈ sortStrings missing, isDescriptor d)
    ∧ ∀ rs, parse_and_prepare_routes st lines ≠ PrepareOutcome.ok rs := by
  have hprops := parseScan_missing_props st lines [] [] routes missing hscan
  have hnd : missing.Nodup := hprops.1 List.nodup_nil
  have hdesc : ∀ d ∈ missing, isDescriptor d := by
    intro d hd
    rcases hprops.2 d hd with h | h
    · exact absurd h (List.not_mem_nil d)
    · exact h
  have hout : parse_and_prepare_routes st lines
      = PrepareOutcome.missingExit (sortStrings missing) := by
    unfold parse_and_prepare_routes
    rw [hscan]
    show (if missing.isEmpty = true then PrepareOutcome.ok routes
          else PrepareOutcome.missingExit (sortStrings missing)) = _
    have : missing.isEmpty = false := by
      cases missing with
      | nil => exact absurd rfl hne
      | cons a l => rfl
    rw [this]
    rfl
  refine ⟨hout, List.sorted_insertionSort _ _, ?_, ?_, ?_⟩
  · exact ((List.perm_insertionSort _ missing).nodup_iff).mpr hnd
  · intro d hd
    exact hdesc d ((List.perm_insertionSort _ missing).mem_iff.mp hd)
  · intro rs
    rw [hout]
    intro hcc
    cases hcc

/-- Claim C2, witness: against `claim2State`, the first line of
`claim2Lines` resolves cleanly, yet because the second line's network is
missing the whole batch is rejected with the single sorted descriptor. -/
theorem claim2_witness :
    parse_and_prepare_routes claim2State claim2Lines
      = PrepareOutcome.missingExit ["Network: 10.9.9.9/255.0.0.0"] :=
  (claim2_all_or_nothing claim2State claim2Lines [claim2Payload]
    ["Network: 10.9.9.9/255.0.0.0"] (by rfl) (by decide)).1

/-- Claim C3, counterexample.  The six-token route line with the
non-integer metric token `one` is not silently skipped: the whole run
aborts with the uncaught `ValueError` (first conjunct), although the very
same input minus that line resolves to a payload (second conjunct) — so the
abort, not a skip-and-continue, is what suppressed the subsequent line's
processing. -/
theorem claim3_counterexample :
    parse_and_prepare_routes claim3State claim3Lines = PrepareOutcome.metricError "one"
    ∧ parse_and_prepare_routes claim3State (claim3Lines.drop 1)
        = PrepareOutcome.ok [claim3Payload] := by
  constructor <;> decide

/-- Claim C3, amended.  A line of the six-token `route` shape whose metric
token does not parse as an integer makes `int(parts[5])` raise an uncaught
`ValueError`: the scan stops at that line with the error (whatever lines
follow and whatever was accumulated), and `parse_and_prepare_routes` ends in
the metric-error outcome — no intents are yielded and no further lines are
processed. -/
theorem claim3_metric_error_aborts (st : ConverterState) (line : String)
    (rest : List String) (routes : List RoutePayload) (missing : List String)
    (itf n mk g met : String)
    (hline : pySplit line = ["route", itf, n, mk, g, met])
    (hmet : pyInt? met = none) :
    parseScan st (line :: rest) routes missing = .error met
    ∧ parse_and_prepare_routes st (line :: rest) = PrepareOutcome.metricError met := by
  have hpl := parseLine_metricError_of line itf n mk g met hline hmet
  refine ⟨parseScan_metricError_step st line rest routes missing met hpl, ?_⟩
  unfold parse_and_prepare_routes
  rw [parseScan_metricError_step st line rest [] [] met hpl]

/-- Claim C3, witness for the amended theorem at a concrete bad-metric line. -/
theorem claim3_witness :
    parseScan emptyState ["route a b c d x"] [] [] = .error "x"
    ∧ parse_and_prepare_routes emptyState ["route a b c d x"]
        = PrepareOutcome.metricError "x" :=
  claim3_metric_error_aborts emptyState "route a b c d x" [] [] []
    "a" "b" "c" "d" "x" (by decide) (by decide)

/-- Claim C6, counterexample.  The spec's worked example: the catalog holds
the network `10.1.1.0` under id `N1` / name `net-101` and the host
`10.1.1.1` under id `H1` / name `gw-111`, exactly as the example states —
but the example line is rejected with `Gateway: 10.1.1.1` instead of
producing the example payload, because lookups key on `obj-<value>` object
names. -/
theorem claim6_counterexample :
    parse_and_prepare_routes
        (loadedState [⟨some "net-101", "N1", "Network", "10.1.1.0"⟩]
          [⟨some "gw-111", "H1", "Host", "10.1.1.1"⟩])
        ["route inside 10.1.1.0 255.255.255.0 10.1.1.1 1"]
      = PrepareOutcome.missingExit ["Gateway: 10.1.1.1"]
    ∧ parse_and_prepare_routes
        (loadedState [⟨some "net-101", "N1", "Network", "10.1.1.0"⟩]
          [⟨some "gw-111", "H1", "Host", "10.1.1.1"⟩])
        ["route inside 10.1.1.0 255.255.255.0 10.1.1.1 1"]
      ≠ PrepareOutcome.ok
          [{ interfaceName := "inside",
             selectedNetworks := [⟨"Network", "N1", "net-101"⟩],
             gateway := ⟨⟨"Host", "H1", "gw-111"⟩⟩,
             metricValue := 1, type := "IPv4StaticRoute", isTunneled := false }] := by
  constructor <;> decide

/-- Claim C6, amended.  For every successfully resolved intent the built
payload has exactly the fixed fields `type = "IPv4StaticRoute"` and
`isTunneled = false`, a singleton `selectedNetworks` holding the
`{type, id, name}` triple of the network catalog entry, `gateway.object`
holding the triple of the gateway entry, and `interfaceName` and
`metricValue` copied unchanged from the line's tokens (any integer metric,
no range check).  The spec's worked example produces its payload only when
the catalog entries bear the names `obj-10.1.1.0` and `obj-10.1.1.1` the
lookup convention expects (whose `name` fields then appear in the payload);
with the names `net-101`/`gw-111` given in the spec the batch is instead
rejected with `Gateway: 10.1.1.1`. -/
theorem claim6_payload_shape (st : ConverterState) (line : String)
    (rest : List String) (routes : List RoutePayload) (missing : List String)
    (itf n mk g met : String) (v : Int) (gw_obj net_obj : CatalogObject)
    (hline : pySplit line = ["route", itf, n, mk, g, met])
    (hmet : pyInt? met = some v)
    (hgw : find_or_create_object st g none = some gw_obj)
    (hnet : find_or_create_object st n (some mk) = some net_obj) :
    parseScan st (line :: rest) routes missing
      = parseScan st rest
          (routes ++
            [{ interfaceName := itf,
               selectedNetworks :=
                 [{ type := net_obj.type, id := net_obj.id, name := net_obj.name }],
               gateway :=
                 { object := { type := gw_obj.type, id := gw_obj.id, name := gw_obj.name } },
               metricValue := v,
               type := "IPv4StaticRoute",
               isTunneled := false }]) missing := by
  have hpl := parseLine_intent_of line itf n mk g met v hline hmet
  exact parseScan_resolved_step st line rest routes missing
    ⟨itf, n, mk, g, v⟩ gw_obj net_obj hpl hgw hnet

/-- Claim C6, witness: the worked-example line against `claim6State` (the
catalog named by the `obj-` convention) appends exactly the example-shaped
payload carrying those catalog names. -/
theorem claim6_witness :
    parseScan claim6State ["route inside 10.1.1.0 255.255.255.0 10.1.1.1 1"] [] []
      = parseScan claim6State []
          [{ interfaceName := "inside",
             selectedNetworks := [⟨"Network", "N1", "obj-10.1.1.0"⟩],
             gateway := ⟨⟨"Host", "H1", "obj-10.1.1.1"⟩⟩,
             metricValue := 1, type := "IPv4StaticRoute", isTunneled := false }] [] :=
  claim6_payload_shape claim6State "route inside 10.1.1.0 255.255.255.0 10.1.1.1 1"
    [] [] [] "inside" "10.1.1.0" "255.255.255.0" "10.1.1.1" "1" 1
    ⟨"obj-10.1.1.1", "H1", "Host", "10.1.1.1"⟩
    ⟨"obj-10.1.1.0", "N1", "Network", "10.1.1.0"⟩
    (by decide) (by decide) (by decide) (by decide)

/-- Claim C7, counterexample.  The line `route a b c d e` has exactly six
tokens and begins with the keyword `route`, yet the parser yields no
RouteIntent for it: the metric token `e` fails `int()` and the line ends in
the metric-error abort instead. -/
theorem claim7_counterexample :
    (pySplit "route a b c d e").length = 6
    ∧ (pySplit "route a b c d e").head? = some "route"
    ∧ isIntent (parseLine "route a b c d e") = false
    ∧ parseLine "route a b c d e" = LineResult.metricError "e" := by
  refine ⟨?_, ?_, ?_, ?_⟩ <;> decide

/-- Claim C7, amended.  A line yields exactly one RouteIntent iff, after
trimming and whitespace-splitting, it has exactly six tokens, the first is
the literal `route`, and the metric token parses as an integer, with tokens
mapped positionally to interface, network, netmask, gateway and metric;
lines not of the six-token `route` shape yield nothing; and a six-token
`route` line whose metric does not parse yields no intent but the run-
aborting metric error. -/
theorem claim7_parser_recognition (line : String) :
    (∀ itf n mk g met v, pySplit line = ["route", itf, n, mk, g, met] →
        pyInt? met = some v →
        parseLine line = LineResult.intent ⟨itf, n, mk, g, v⟩)
    ∧ (∀ r, parseLine line = LineResult.intent r →
        ∃ met, pySplit line = ["route", r.interface, r.network, r.netmask, r.gateway, met]
          ∧ pyInt? met = some r.metric)
    ∧ ((pySplit line).length ≠ 6 ∨ (pySplit line).head? ≠ some "route" →
        parseLine line = LineResult.skip)
    ∧ (∀ itf n mk g met, pySplit line = ["route", itf, n, mk, g, met] →
        pyInt? met = none →
        parseLine line = LineResult.metricError met) := by
  refine ⟨?_, ?_, ?_, ?_⟩
  · intro itf n mk g met v hline hmet
    exact parseLine_intent_of line itf n mk g met v hline hmet
  · intro r h
    unfold parseLine at h
    split at h
    · rename_i kw itf network netmask gateway metricTok heq
      split at h
      · rename_i hkw
        subst hkw
        cases hv : pyInt? metricTok with
        | none => rw [hv] at h; cases h
        | some v =>
          rw [hv] at h
          cases h
          exact ⟨metricTok, heq, hv⟩
      · cases h
    · cases h
  · intro hcond
    unfold parseLine
    split
    · rename_i kw itf network netmask gateway metricTok heq
      rw [heq] at hcond
      have hkw : kw ≠ "route" := by
        rcases hcond with hl | hh
        · exact absurd rfl hl
        · intro hk
          exact hh (by rw [hk]; rfl)
      rw [if_neg hkw]
    · rfl
  · intro itf n mk g met hline hmet
    exact parseLine_metricError_of line itf n mk g met hline hmet

/-- Claim C10 (confirmed).  On a recognised route line the gateway is
resolved first; when that lookup misses, the scan of the line ends
immediately: the missing set gains only the `Gateway:` descriptor of this
line (never its `Network:` descriptor), the network is never looked up, and
the scan continues with the remaining lines unchanged otherwise. -/
theorem claim10_gateway_before_network (st : ConverterState) (line : String)
    (rest : List String) (routes : List RoutePayload) (missing : List String)
    (itf n mk g met : String) (v : Int)
    (hline : pySplit line = ["route", itf, n, mk, g, met])
    (hmet : pyInt? met = some v)
    (hgw : find_or_create_object st g none = none) :
    parseScan st (line :: rest) routes missing
      = parseScan st rest routes (setAdd missing ("Gateway: " ++ g))
    ∧ ∀ d, d ∈ setAdd missing ("Gateway: " ++ g) → d ∈ missing ∨ d = "Gateway: " ++ g := by
  have hpl := parseLine_intent_of line itf n mk g met v hline hmet
  exact ⟨parseScan_gwMissing_step st line rest routes missing ⟨itf, n, mk, g, v⟩ hpl hgw,
    fun d => setAdd_mem missing ("Gateway: " ++ g) d⟩

/-- Claim C10, witness: a line whose gateway and network are both absent
from an empty catalog records only the gateway descriptor. -/
theorem claim10_witness :
    parseScan emptyState ["route a 10.0.0.0 255.0.0.0 10.0.0.1 1"] [] []
      = parseScan emptyState [] [] (setAdd [] ("Gateway: " ++ "10.0.0.1")) :=
  (claim10_gateway_before_network emptyState "route a 10.0.0.0 255.0.0.0 10.0.0.1 1"
    [] [] [] "a" "10.0.0.0" "255.0.0.0" "10.0.0.1" "1" 1
    (by decide) (by decide) (by decide)).1

theorem deployLoop_cons_pos (ok : Nat → Bool) (total : Nat) (p : RoutePayload)
    (ps : List RoutePayload) (i : Nat) (h : ok i = true) :
    deployLoop ok total (p :: ps) i
      = (DeployEvent.submit i p :: DeployEvent.progress i total p ::
           (if i % 10 = 0 then DeployEvent.sleep1 :: (deployLoop ok total ps (i + 1)).1
            else (deployLoop ok total ps (i + 1)).1),
         (deployLoop ok total ps (i + 1)).2) := by
  simp only [deployLoop, h, if_true]

theorem deployLoop_cons_neg (ok : Nat → Bool) (total : Nat) (p : RoutePayload)
    (ps : List RoutePayload) (i : Nat) (h : ok i = false) :
    deployLoop ok total (p :: ps) i
      = ([DeployEvent.submit i p, DeployEvent.errorDump p], false) := by
  simp only [deployLoop, h]
  rfl

theorem deployLoop_headSubmit (ok : Nat → Bool) (total : Nat)
    (ps : List RoutePayload) (i : Nat) :
    headSubmit (deployLoop ok total ps i).1 = true := by
  cases ps with
  | nil => rfl
  | cons p ps =>
    by_cases h : ok i = true
    · rw [deployLoop_cons_pos ok total p ps i h]
      rfl
    · rw [deployLoop_cons_neg ok total p ps i (by simpa using h)]
      rfl

theorem deployLoop_pacing (ok : Nat → Bool) (total : Nat) (ps : List RoutePayload) :
    ∀ i : Nat, pacingOK (deployLoop ok total ps i).1 = true := by
  induction ps with
  | nil => intro i; rfl
  | cons p ps ih =>
    intro i
    by_cases h : ok i = true
    · rw [deployLoop_cons_pos ok total p ps i h]
      by_cases h10 : i % 10 = 0
      · rw [if_pos h10]
        show ((i % 10 == 0) && pacingOK (deployLoop ok total ps (i + 1)).1) = true
        rw [ih (i + 1), Bool.and_true]
        simpa using h10
      · rw [if_neg h10]
        have hh := deployLoop_headSubmit ok total ps (i + 1)
        have ihh := ih (i + 1)
        rcases hsh : (deployLoop ok total ps (i + 1)).1 with _ | ⟨e, tl⟩
        · show ((i % 10 != 0) && pacingOK ([] : List DeployEvent)) = true
          have hnil : pacingOK ([] : List DeployEvent) = true := rfl
          rw [hnil, Bool.and_true]
          simpa using h10
        · rw [hsh] at hh ihh
          cases e with
          | submit j q =>
            show ((i % 10 != 0) && pacingOK (DeployEvent.submit j q :: tl)) = true
            rw [ihh, Bool.and_true]
            simpa using h10
          | progress j t q => exact absurd hh (by simp [headSubmit])
          | sleep1 => exact absurd hh (by simp [headSubmit])
          | errorDump q => exact absurd hh (by simp [headSubmit])
    · rw [deployLoop_cons_neg ok total p ps i (by simpa using h)]
      rfl

theorem deployLoop_progress (ok : Nat → Bool) (total : Nat) (ps : List RoutePayload) :
    ∀ i : Nat, progressOK total ok (deployLoop ok total ps i).1 = true := by
  induction ps with
  | nil => intro i; rfl
  | cons p ps ih =>
    intro i
    by_cases h : ok i = true
    · rw [deployLoop_cons_pos ok total p ps i h]
      by_cases h10 : i % 10 = 0
      · rw [if_pos h10]
        show (if i = i ∧ total = total ∧ p = p
              then ok i && progressOK total ok
                (DeployEvent.sleep1 :: (deployLoop ok total ps (i + 1)).1)
              else false) = true
        rw [if_pos ⟨rfl, rfl, rfl⟩, h, Bool.true_and]
        show progressOK total ok (deployLoop ok total ps (i + 1)).1 = true
        exact ih (i + 1)
      · rw [if_neg h10]
        show (if i = i ∧ total = total ∧ p = p
              then ok i && progressOK total ok (deployLoop ok total ps (i + 1)).1
              else false) = true
        rw [if_pos ⟨rfl, rfl, rfl⟩, h, Bool.true_and]
        exact ih (i + 1)
    · have h' : ok i = false := by simpa using h
      rw [deployLoop_cons_neg ok total p ps i h']
      show (if p = p ∧ ([] : List DeployEvent) = [] then !ok i else false) = true
      rw [if_pos ⟨rfl, rfl⟩, h']
      rfl

theorem deployLoop_submits_spec (ok : Nat → Bool) (total : Nat) (ps : List RoutePayload) :
    ∀ i : Nat,
      ∃ k, k ≤ ps.length
        ∧ submits (deployLoop ok total ps i).1 = numberFrom i (ps.take k)
        ∧ ((deployLoop ok total ps i).2 = true ∧ k = ps.length
              ∧ (∀ j, i ≤ j → j < i + k → ok j = true)
           ∨ (deployLoop ok total ps i).2 = false ∧ 1 ≤ k ∧ ok (i + k - 1) = false
              ∧ (∀ j, i ≤ j → j + 1 < i + k → ok j = true)) := by
  induction ps with
  | nil =>
    intro i
    exact ⟨0, Nat.le_refl 0, rfl,
      Or.inl ⟨rfl, rfl, fun j hj hj' => absurd hj' (by omega)⟩⟩
  | cons p ps ih =>
    intro i
    by_cases h : ok i = true
    · obtain ⟨k, hk, hsub, hcase⟩ := ih (i + 1)
      refine ⟨k + 1, by simpa using Nat.succ_le_succ hk, ?_, ?_⟩
      · rw [deployLoop_cons_pos ok total p ps i h]
        have hx : submits
            (DeployEvent.submit i p :: DeployEvent.progress i total p ::
              (if i % 10 = 0 then DeployEvent.sleep1 :: (deployLoop ok total ps (i + 1)).1
               else (deployLoop ok total ps (i + 1)).1))
            = (i, p) :: submits (deployLoop ok total ps (i + 1)).1 := by
          by_cases h10 : i % 10 = 0
          · rw [if_pos h10]
            rfl
          · rw [if_neg h10]
            rfl
        rw [hx, hsub, List.take_succ_cons]
        rfl
      · rcases hcase with ⟨hdone, hkl, hoks⟩ | ⟨hfail, hk1, hokf, hoks⟩
        · refine Or.inl ⟨?_, by simp [hkl], ?_⟩
          · rw [deployLoop_cons_pos ok total p ps i h]
            exact hdone
          · intro j hj hj'
            rcases Nat.eq_or_lt_of_le hj with rfl | hlt
            · exact h
            · exact hoks j (by omega) (by omega)
        · refine Or.inr ⟨?_, by omega, ?_, ?_⟩
          · rw [deployLoop_cons_pos ok total p ps i h]
            exact hfail
          · have he : i + (k + 1) - 1 = i + 1 + k - 1 := by omega
            rw [he]
            exact hokf
          · intro j hj hj'
            rcases Nat.eq_or_lt_of_le hj with rfl | hlt
            · exact h
            · exact hoks j (by omega) (by omega)
    · have h' : ok i = false := by simpa using h
      refine ⟨1, by simp, ?_, Or.inr ⟨?_, Nat.le_refl 1, ?_, ?_⟩⟩
      · rw [deployLoop_cons_neg ok total p ps i h']
        rfl
      · rw [deployLoop_cons_neg ok total p ps i h']
      · have he : i + 1 - 1 = i := by omega
        rw [he]
        exact h'
      · intro j hj hj'
        exact absurd hj' (by omega)

/-- Claim C4 (confirmed).  There is a cut-off `k` such that the driver's
submission attempts are exactly the first `k` payloads, in input order,
numbered 1..k: on a completed run `k` is the whole batch and every
submission succeeded; on an aborted run the `k`-th submission is the one
that failed, every earlier one succeeded, and submissions `k+1..n` never
occur.  Earlier submissions stay in the trace untouched — the driver has no
rollback action at all. -/
theorem claim4_sequential_fail_fast (routes : List RoutePayload) (ok : Nat → Bool) :
    ∃ k, k ≤ routes.length
      ∧ submits (deploy_routes routes ok).1 = numberFrom 1 (routes.take k)
      ∧ ((deploy_routes routes ok).2 = true ∧ k = routes.length
            ∧ (∀ j, 1 ≤ j → j ≤ k → ok j = true)
         ∨ (deploy_routes routes ok).2 = false ∧ 1 ≤ k ∧ ok k = false
            ∧ (∀ j, 1 ≤ j → j < k → ok j = true)) := by
  unfold deploy_routes
  obtain ⟨k, hk, hsub, hcase⟩ := deployLoop_submits_spec ok routes.length routes 1
  refine ⟨k, hk, hsub, ?_⟩
  rcases hcase with ⟨hdone, hkl, hoks⟩ | ⟨hfail, hk1, hokf, hoks⟩
  · exact Or.inl ⟨hdone, hkl, fun j h1 h2 => hoks j h1 (by omega)⟩
  · refine Or.inr ⟨hfail, hk1, ?_, fun j h1 h2 => hoks j h1 (by omega)⟩
    have he : 1 + k - 1 = k := by omega
    rw [he] at hokf
    exact hokf

/-- Claim C9, counterexample.  Ten payloads with the 10th submission
failing: the 10th submission does occur (its 1-based index is divisible by
10), yet the trace contains no pacing sleep at all — the sleep happens only
after a *successful* 10th submission, not after every 10th submission. -/
theorem claim9_counterexample :
    (10, claim9Payload) ∈ submits (deploy_routes claim9Routes claim9Ok).1
    ∧ DeployEvent.sleep1 ∉ (deploy_routes claim9Routes claim9Ok).1 := by
  constructor <;> decide

/-- Claim C9, amended.  In every deployment trace, the driver pauses
exactly after every 10th *successful* submission — each sleep immediately
follows the progress diagnostic of a successful submission whose index is
divisible by 10, each such diagnostic is followed by the sleep, and no
sleep occurs anywhere else — and after every successful submission (and
only those) it emits the `i/total` progress diagnostic for that submission. -/
theorem claim9_pacing_and_progress (routes : List RoutePayload) (ok : Nat → Bool) :
    pacingOK (deploy_routes routes ok).1 = true
    ∧ progressOK routes.length ok (deploy_routes routes ok).1 = true := by
  unfold deploy_routes
  exact ⟨deployLoop_pacing ok routes.length routes 1,
    deployLoop_progress ok routes.length routes 1⟩
